import Mathlib

set_option maxHeartbeats 1000000

/-!
Shallow embedding of ProcessLoopbackCapture (src/ProcessLoopbackCapture.cpp,
src/ProcessLoopbackCapture.h) and proofs of the frozen claims about it.

Machine integers: WORD is 16-bit and DWORD 32-bit, so casts to them are
modelled as `% 2 ^ 16` / `% 2 ^ 32` on `Nat`.  The C++ `double` values that
appear (the skip duration of `ResumeCapture`/`StartThreads`) are modelled as
exact rationals `ℚ`; the `(DWORD)` conversion of a nonnegative double is
truncation toward zero, i.e. `Rat.floor` followed by `Int.toNat` (conversion
of an out-of-range double to DWORD is undefined behaviour in the source
language, so theorems about it carry in-range hypotheses).

The build configuration verified is the one in which the decoupling queue is
compiled in (`PROCESS_LOOPBACK_CAPTURE_QUEUE_AVAILABLE` set), since the
repository's decoupling-stage code (`ProcessMainToQueue`,
`ProcessIntermediate`) is part of the translation unit under `src/`.

Threads are modelled by explicit state passing: the producer loop body
(`ProcessMainToCallback` / `ProcessMainToQueue`) and the decoupling loop body
(`ProcessIntermediate`) become pure functions over the byte buffers the
session hands out per wake, and the control-plane operations
(`StartCapture`, `StopCapture`, `PauseCapture`, `ResumeCapture`) become pure
state transformers taking the results of the external session calls as an
explicit environment.
-/

/-- Capture states of the public state machine (eCaptureState in the header). -/
inductive eCaptureState : Type
  | READY : eCaptureState
  | CAPTURING : eCaptureState
  | PAUSED : eCaptureState
deriving DecidableEq

/-- Error codes of the public API (eCaptureError in the header). -/
inductive eCaptureError : Type
  | NONE : eCaptureError
  | PARAM : eCaptureError
  | STATE : eCaptureError
  | NOT_AVAILABLE : eCaptureError
  | FORMAT : eCaptureError
  | PROCESSID : eCaptureError
  | DEVICE : eCaptureError
  | ACTIVATION : eCaptureError
  | INITIALIZE : eCaptureError
  | SERVICE : eCaptureError
  | START : eCaptureError
  | STOP : eCaptureError
  | EVENT : eCaptureError
  | INTERFACE : eCaptureError
deriving DecidableEq

/-- Number of bits in a char, the C constant CHAR_BIT. -/
def CHAR_BIT : Nat := 8

/-- Windows wave format tag for integer PCM. -/
def WAVE_FORMAT_PCM : Nat := 1

/-- Windows wave format tag for IEEE float samples. -/
def WAVE_FORMAT_IEEE_FLOAT : Nat := 3

namespace LoopbackCaptureConst

/-- Modelled from the spec: the version of the LoopbackCaptureConst namespace
defining the format bounds used by SetCaptureFormat is missing from src (the
header under src is a different revision without these constants); the spec
gives sampleRate ∈ [1000, 384000]. -/
def MIN_SAMPLE_RATE : Nat := 1000

/-- Modelled from the spec: upper sample-rate bound, see MIN_SAMPLE_RATE. -/
def MAX_SAMPLE_RATE : Nat := 384000

/-- Modelled from the spec: bitDepth ∈ {8,16,24,32}, so the maximum bit depth
is 32 (the code additionally requires a nonzero multiple of CHAR_BIT). -/
def MAX_BIT_DEPTH : Nat := 32

/-- Modelled from the spec: channelCount ∈ [1,1024], lower bound. -/
def MIN_CHANNEL_COUNT : Nat := 1

/-- Modelled from the spec: channelCount ∈ [1,1024], upper bound. -/
def MAX_CHANNEL_COUNT : Nat := 1024

end LoopbackCaptureConst

/-- Build configuration bit: whether the decoupling queue is compiled in.
The source under verification contains the queue code, so it is true here. -/
def PROCESS_LOOPBACK_CAPTURE_QUEUE_AVAILABLE : Bool := true

/-- The subset of WAVEFORMATEX the code reads and writes.  WORD fields hold
values below 2 ^ 16 and DWORD fields values below 2 ^ 32 by construction. -/
structure WAVEFORMATEX where
  wFormatTag : Nat
  nChannels : Nat
  nSamplesPerSec : Nat
  nAvgBytesPerSec : Nat
  nBlockAlign : Nat
  wBitsPerSample : Nat
deriving DecidableEq

/-- Zero-initialized format, the member initializer m_CaptureFormat{}. -/
def WAVEFORMATEX.zeroed : WAVEFORMATEX :=
  { wFormatTag := 0, nChannels := 0, nSamplesPerSec := 0,
    nAvgBytesPerSec := 0, nBlockAlign := 0, wBitsPerSample := 0 }

/-- The members of class ProcessLoopbackCapture that the verified operations
touch.  COM interface pointers and the event handle are modelled as
held/not-held booleans; the callback function pointer as a set/null boolean;
bytes as `Nat` values; the queue and the staging vector as byte lists. -/
structure ProcessLoopbackCapture where
  m_hrLastError : Int
  m_CaptureState : eCaptureState
  m_pAudioClient : Bool
  m_pAudioCaptureClient : Bool
  m_hSampleReadyEvent : Bool
  m_bCaptureFormatInitialized : Bool
  m_CaptureFormat : WAVEFORMATEX
  m_dwProcessId : Nat
  m_bProcessInclusive : Bool
  m_bUseIntermediateBuffer : Bool
  m_pCallbackFunc : Bool
  m_dwCallbackInterval : Nat
  m_bInitMF : Bool
  m_bThreadsStarted : Bool
  m_bRunMainAudioThread : Bool
  m_bRunQueueAudioThread : Bool
  m_dwMainThreadBytesToSkip : Nat
  m_Queue : List Nat
  m_vecIntermediateBuffer : List Nat
deriving DecidableEq

/-- The constructor's member-initializer list. -/
def ProcessLoopbackCapture.initialState : ProcessLoopbackCapture :=
  { m_hrLastError := 0
    m_CaptureState := eCaptureState.READY
    m_pAudioClient := false
    m_pAudioCaptureClient := false
    m_hSampleReadyEvent := false
    m_bCaptureFormatInitialized := false
    m_CaptureFormat := WAVEFORMATEX.zeroed
    m_dwProcessId := 0
    m_bProcessInclusive := false
    m_bUseIntermediateBuffer := true
    m_pCallbackFunc := false
    m_dwCallbackInterval := 100
    m_bInitMF := false
    m_bThreadsStarted := false
    m_bRunMainAudioThread := false
    m_bRunQueueAudioThread := false
    m_dwMainThreadBytesToSkip := 0
    m_Queue := []
    m_vecIntermediateBuffer := [] }

/-- SetCaptureFormat.  The C++ writes the guards as an if/else-if chain with
the IEEE-float branch overwriting iBitDepth before the field writes; here the
chain is flattened into a guard that fails exactly when the tag is neither
IEEE float nor PCM, followed by the same overwrite. -/
def SetCaptureFormat (s : ProcessLoopbackCapture)
    (iSampleRate iBitDepth iChannelCount iFormatTag : Nat) :
    ProcessLoopbackCapture × eCaptureError :=
  if s.m_CaptureState ≠ eCaptureState.READY then (s, eCaptureError.STATE)
  else if iSampleRate < LoopbackCaptureConst.MIN_SAMPLE_RATE ∨
      iSampleRate > LoopbackCaptureConst.MAX_SAMPLE_RATE then (s, eCaptureError.PARAM)
  else if iBitDepth = 0 ∨ iBitDepth > LoopbackCaptureConst.MAX_BIT_DEPTH ∨
      iBitDepth % CHAR_BIT ≠ 0 then (s, eCaptureError.PARAM)
  else if iChannelCount < LoopbackCaptureConst.MIN_CHANNEL_COUNT ∨
      iChannelCount > LoopbackCaptureConst.MAX_CHANNEL_COUNT then (s, eCaptureError.PARAM)
  else if iFormatTag ≠ WAVE_FORMAT_IEEE_FLOAT ∧ iFormatTag ≠ WAVE_FORMAT_PCM then
    (s, eCaptureError.PARAM)
  else
    let iBitDepth2 := if iFormatTag = WAVE_FORMAT_IEEE_FLOAT then 4 * CHAR_BIT else iBitDepth
    let wFormatTag := iFormatTag % 2 ^ 16
    let nChannels := iChannelCount % 2 ^ 16
    let nSamplesPerSec := iSampleRate % 2 ^ 32
    let wBitsPerSample := iBitDepth2 % 2 ^ 16
    let nBlockAlign := nChannels * wBitsPerSample / CHAR_BIT % 2 ^ 16
    let nAvgBytesPerSec := nSamplesPerSec * nBlockAlign % 2 ^ 32
    ({ s with
        m_CaptureFormat :=
          { wFormatTag := wFormatTag, nChannels := nChannels,
            nSamplesPerSec := nSamplesPerSec, nAvgBytesPerSec := nAvgBytesPerSec,
            nBlockAlign := nBlockAlign, wBitsPerSample := wBitsPerSample },
        m_bCaptureFormatInitialized := true },
      eCaptureError.NONE)

/-- SetTargetProcess. -/
def SetTargetProcess (s : ProcessLoopbackCapture) (dwProcessId : Nat) (bInclusive : Bool) :
    ProcessLoopbackCapture × eCaptureError :=
  if s.m_CaptureState ≠ eCaptureState.READY then (s, eCaptureError.STATE)
  else if dwProcessId = 0 then (s, eCaptureError.PARAM)
  else ({ s with m_dwProcessId := dwProcessId, m_bProcessInclusive := bInclusive },
    eCaptureError.NONE)

/-- SetCallback.  The function pointer and user-data pointer are stored
unconditionally once the state check passes; only whether the function
pointer is non-null matters to the pipeline, so that is what is kept. -/
def SetCallback (s : ProcessLoopbackCapture) (pCallbackFunc : Bool) :
    ProcessLoopbackCapture × eCaptureError :=
  if s.m_CaptureState ≠ eCaptureState.READY then (s, eCaptureError.STATE)
  else ({ s with m_pCallbackFunc := pCallbackFunc }, eCaptureError.NONE)

/-- SetCallbackInterval: values below 1 are clamped up to 1. -/
def SetCallbackInterval (s : ProcessLoopbackCapture) (dwInterval : Nat) :
    ProcessLoopbackCapture × eCaptureError :=
  if s.m_CaptureState ≠ eCaptureState.READY then (s, eCaptureError.STATE)
  else ({ s with m_dwCallbackInterval := if dwInterval < 1 then 1 else dwInterval },
    eCaptureError.NONE)

/-- SetIntermediateBufferEnabled (the spec calls it SetIntermediateModeEnabled):
fails NOT_AVAILABLE when the queue is not compiled in, otherwise needs READY. -/
def SetIntermediateBufferEnabled (s : ProcessLoopbackCapture) (bEnable : Bool) :
    ProcessLoopbackCapture × eCaptureError :=
  if PROCESS_LOOPBACK_CAPTURE_QUEUE_AVAILABLE = false then (s, eCaptureError.NOT_AVAILABLE)
  else if s.m_CaptureState ≠ eCaptureState.READY then (s, eCaptureError.STATE)
  else ({ s with m_bUseIntermediateBuffer := bEnable }, eCaptureError.NONE)

/-- GetState. -/
def GetState (s : ProcessLoopbackCapture) : eCaptureState :=
  s.m_CaptureState

/-- Results of the external session/platform calls StartCapture makes, in
call order: ActivateAudioInterfaceAsync, GetActivateResult, Initialize,
GetService, CreateEventW, SetEventHandle, IAudioClient::Start.  HRESULTs are
integers with 0 = S_OK; CreateEventW either yields a handle or NULL. -/
structure StartEnv where
  activateAsyncHr : Int
  activateResultHr : Int
  initializeHr : Int
  getServiceHr : Int
  createEventOk : Bool
  setEventHandleHr : Int
  startHr : Int
deriving DecidableEq

/-- Environment in which every external call succeeds. -/
def StartEnv.allOk : StartEnv :=
  { activateAsyncHr := 0, activateResultHr := 0, initializeHr := 0,
    getServiceHr := 0, createEventOk := true, setEventHandleHr := 0, startHr := 0 }

/-- StartThreads.  The DWORD cast of the nonnegative double
nSamplesPerSec * fInitialDurationToSkip is truncation toward zero (assumed in
range, see the module header); the DWORD * DWORD product wraps mod 2 ^ 32.
Which worker threads exist depends on the decoupling configuration. -/
def StartThreads (s : ProcessLoopbackCapture) (fInitialDurationToSkip : ℚ) :
    ProcessLoopbackCapture :=
  if s.m_bThreadsStarted then s
  else
    let d := if fInitialDurationToSkip < 0 then 0 else fInitialDurationToSkip
    let skip := (((s.m_CaptureFormat.nSamplesPerSec : ℚ) * d).floor.toNat % 2 ^ 32) *
      s.m_CaptureFormat.nBlockAlign % 2 ^ 32
    if PROCESS_LOOPBACK_CAPTURE_QUEUE_AVAILABLE ∧ s.m_bUseIntermediateBuffer then
      { s with
          m_dwMainThreadBytesToSkip := skip, m_bRunMainAudioThread := true,
          m_bRunQueueAudioThread := true, m_bThreadsStarted := true }
    else
      { s with
          m_dwMainThreadBytesToSkip := skip, m_bRunMainAudioThread := true,
          m_bRunQueueAudioThread := false, m_bThreadsStarted := true }

/-- StopThreads: joins the workers, flushes the handoff queue and clears the
staging vector.  A no-op when the threads are not running.  Neither this nor
Reset touches m_dwMainThreadBytesToSkip. -/
def StopThreads (s : ProcessLoopbackCapture) : ProcessLoopbackCapture :=
  if ¬s.m_bThreadsStarted then s
  else
    { s with
        m_bRunMainAudioThread := false, m_bRunQueueAudioThread := false,
        m_Queue := [], m_vecIntermediateBuffer := [], m_bThreadsStarted := false }

/-- Reset: stops the session if CAPTURING, stops the threads, releases the
capture client, the audio client and the event, and returns to READY. -/
def ProcessLoopbackCapture.Reset (s : ProcessLoopbackCapture) : ProcessLoopbackCapture :=
  let s1 := StopThreads s
  { s1 with
      m_pAudioCaptureClient := false, m_pAudioClient := false,
      m_hSampleReadyEvent := false, m_CaptureState := eCaptureState.READY }

/-- StartCapture, with the external call results passed as an environment.
GetActivateResult hands over the audio client exactly when activation
succeeded; each failure after the cheap guards rolls back via Reset. -/
def StartCapture (s : ProcessLoopbackCapture) (env : StartEnv) :
    ProcessLoopbackCapture × eCaptureError :=
  if s.m_CaptureState ≠ eCaptureState.READY then (s, eCaptureError.STATE)
  else if ¬s.m_bCaptureFormatInitialized then (s, eCaptureError.FORMAT)
  else if s.m_dwProcessId = 0 then (s, eCaptureError.PROCESSID)
  else
    let s1 := { s with m_bInitMF := true, m_hrLastError := env.activateAsyncHr }
    if env.activateAsyncHr ≠ 0 then (s1.Reset, eCaptureError.DEVICE)
    else
      let s2 :=
        { s1 with
            m_hrLastError := env.activateResultHr,
            m_pAudioClient := env.activateResultHr = 0 }
      if env.activateResultHr ≠ 0 then (s2.Reset, eCaptureError.ACTIVATION)
      else
        let s3 := { s2 with m_hrLastError := env.initializeHr }
        if env.initializeHr ≠ 0 then (s3.Reset, eCaptureError.INITIALIZE)
        else
          let s4 :=
            { s3 with
                m_hrLastError := env.getServiceHr,
                m_pAudioCaptureClient := env.getServiceHr = 0 }
          if env.getServiceHr ≠ 0 then (s4.Reset, eCaptureError.SERVICE)
          else
            let s5 :=
              { s4 with
                  m_hSampleReadyEvent := env.createEventOk,
                  m_hrLastError := env.setEventHandleHr }
            if env.setEventHandleHr ≠ 0 ∨ ¬env.createEventOk then
              (s5.Reset, eCaptureError.EVENT)
            else
              let s6 := { s5 with m_hrLastError := env.startHr }
              if env.startHr ≠ 0 then (s6.Reset, eCaptureError.START)
              else
                let s7 := StartThreads s6 0
                ({ s7 with m_CaptureState := eCaptureState.CAPTURING }, eCaptureError.NONE)

/-- StopCapture. -/
def StopCapture (s : ProcessLoopbackCapture) : ProcessLoopbackCapture × eCaptureError :=
  if s.m_CaptureState = eCaptureState.READY then (s, eCaptureError.STATE)
  else (s.Reset, eCaptureError.NONE)

/-- PauseCapture, with the result of IAudioClient::Stop as argument.  The
state becomes PAUSED before the session stop; a failed stop returns STOP
without rolling the state back and without StopThreads. -/
def PauseCapture (s : ProcessLoopbackCapture) (stopHr : Int) :
    ProcessLoopbackCapture × eCaptureError :=
  if s.m_CaptureState ≠ eCaptureState.CAPTURING then (s, eCaptureError.STATE)
  else
    let s1 := { s with m_CaptureState := eCaptureState.PAUSED, m_hrLastError := stopHr }
    if stopHr ≠ 0 then (s1, eCaptureError.STOP)
    else (StopThreads s1, eCaptureError.NONE)

/-- ResumeCapture, with the result of IAudioClient::Start as argument.  The
state becomes CAPTURING before the session start (the ResetEvent call touches
only the event object); a failed start returns START without rolling the
state back and without StartThreads. -/
def ResumeCapture (s : ProcessLoopbackCapture) (fInitialDurationToSkip : ℚ)
    (startHr : Int) : ProcessLoopbackCapture × eCaptureError :=
  if s.m_CaptureState ≠ eCaptureState.PAUSED then (s, eCaptureError.STATE)
  else
    let s1 := { s with m_CaptureState := eCaptureState.CAPTURING, m_hrLastError := startHr }
    if startHr ≠ 0 then (s1, eCaptureError.START)
    else (StartThreads s1 fInitialDurationToSkip, eCaptureError.NONE)

/-- Bridge between Rat.floor, which the embedding uses because the dot
notation on ℚ resolves to it, and the floor of the FloorRing instance on ℚ
(they are definitionally the same function). -/
theorem ratFloorEq (q : ℚ) : q.floor = ⌊q⌋ := rfl

/-- Per-byte loop body shared by ProcessMainToCallback and
ProcessMainToQueue: for every byte of one session buffer, a nonzero pending
skip budget is decremented and the byte dropped, otherwise the byte is
appended to the destination (staging vector, resp. handoff queue). -/
def copyLoop (skip : Nat) (dest : List Nat) : List Nat → Nat × List Nat
  | [] => (skip, dest)
  | b :: rest =>
    if skip ≠ 0 then copyLoop (skip - 1) dest rest
    else copyLoop skip (dest ++ [b]) rest

/-- One wake's GetBuffer/ReleaseBuffer drain loop: every currently available
session buffer is copied through copyLoop in order. -/
def drainBuffers (skip : Nat) (dest : List Nat) : List (List Nat) → Nat × List Nat
  | [] => (skip, dest)
  | buf :: bufs =>
    let r := copyLoop skip dest buf
    drainBuffers r.1 r.2 bufs

/-- One wake of ProcessMainToCallback after the event fired: drain all
buffers, then if the staging vector is non-empty pass the full range to the
callback when one is set and clear the vector.  Yields the new skip budget,
the new staging vector, and the range delivered to the callback if any. -/
def directWake (cb : Bool) (skip : Nat) (staging : List Nat) (bufs : List (List Nat)) :
    Nat × List Nat × Option (List Nat) :=
  let r := drainBuffers skip staging bufs
  if r.2 ≠ [] then (r.1, [], if cb then some r.2 else none)
  else (r.1, r.2, none)

/-- A maximal run of producer wakes of one CAPTURING interval in
direct-callback mode, over the per-wake buffer lists the session yields;
accumulates the ranges delivered to the callback in order. -/
def runDirectWakes (cb : Bool) (skip : Nat) (staging : List Nat) (dels : List (List Nat)) :
    List (List (List Nat)) → Nat × List Nat × List (List Nat)
  | [] => (skip, staging, dels)
  | w :: ws =>
    let r := directWake cb skip staging w
    runDirectWakes cb r.1 r.2.1 (dels ++ r.2.2.toList) ws

/-- One cycle of ProcessIntermediate: dequeue every byte currently in the
handoff queue into the staging vector, compute the largest multiple of the
block alignment not exceeding the vector size, and when it is nonzero hand
exactly that prefix to the callback when one is set and erase it from the
vector.  Yields the new staging vector and the delivered range if any. -/
def intermediateCycle (cb : Bool) (nBlockAlign : Nat) (staging queued : List Nat) :
    List Nat × Option (List Nat) :=
  let buf := staging ++ queued
  let iAlignedSize := buf.length / nBlockAlign * nBlockAlign
  if iAlignedSize > 0 then
    (buf.drop iAlignedSize, if cb then some (buf.take iAlignedSize) else none)
  else (buf, none)

/-- Closed form of copyLoop: the first `skip` bytes are dropped, the rest
appended, and the budget decreases by the number of bytes dropped. -/
theorem copyLoop_eq (data : List Nat) : ∀ (skip : Nat) (dest : List Nat),
    copyLoop skip dest data = (skip - data.length, dest ++ data.drop skip) := by
  induction data with
  | nil => intro skip dest; simp [copyLoop]
  | cons b rest ih =>
    intro skip dest
    cases skip with
    | zero => simp [copyLoop, ih]
    | succ k => simp [copyLoop, ih, Nat.succ_sub_succ]

/-- Closed form of the per-wake drain loop. -/
theorem drainBuffers_eq (bufs : List (List Nat)) : ∀ (skip : Nat) (dest : List Nat),
    drainBuffers skip dest bufs =
      (skip - bufs.flatten.length, dest ++ bufs.flatten.drop skip) := by
  induction bufs with
  | nil => intro skip dest; simp [drainBuffers]
  | cons buf rest ih =>
    intro skip dest
    simp only [drainBuffers, copyLoop_eq, ih, List.flatten_cons, List.length_append,
      List.drop_append_eq_append_drop, List.append_assoc, Prod.mk.injEq]
    exact ⟨by omega, trivial⟩

/-- Closed form of a direct-mode wake starting from an empty staging vector:
the staging vector is empty again afterwards, and the bytes surviving the
skip budget, if any, went to the callback as one range. -/
theorem directWake_empty (skip : Nat) (w : List (List Nat)) :
    directWake true skip [] w =
      (skip - w.flatten.length, [],
       if w.flatten.drop skip = [] then none else some (w.flatten.drop skip)) := by
  simp only [directWake, drainBuffers_eq, List.nil_append]
  by_cases h : w.flatten.drop skip = [] <;> simp [h]

/-- Closed form of a run of direct-mode wakes from an empty staging vector:
the budget decreases by the total byte count, the staging vector stays empty,
and the delivered ranges concatenate to the byte stream minus the skip. -/
theorem runDirectWakes_spec (ws : List (List (List Nat))) :
    ∀ (skip : Nat) (dels : List (List Nat)),
      (runDirectWakes true skip [] dels ws).1 =
        skip - (ws.map List.flatten).flatten.length ∧
      (runDirectWakes true skip [] dels ws).2.1 = [] ∧
      (runDirectWakes true skip [] dels ws).2.2.flatten =
        dels.flatten ++ (ws.map List.flatten).flatten.drop skip := by
  induction ws with
  | nil => intro skip dels; simp [runDirectWakes]
  | cons w ws ih =>
    intro skip dels
    simp only [runDirectWakes, directWake_empty]
    rcases ih (skip - w.flatten.length)
        (dels ++ (if w.flatten.drop skip = [] then none
          else some (w.flatten.drop skip)).toList) with ⟨h1, h2, h3⟩
    refine ⟨?_, h2, ?_⟩
    · rw [h1]
      simp only [List.map_cons, List.flatten_cons, List.length_append]
      omega
    · rw [h3]
      by_cases h : w.flatten.drop skip = [] <;>
        simp [h, List.map_cons, List.flatten_cons, List.drop_append_eq_append_drop,
          List.append_assoc]

/-- C1: in direct-callback mode, over any single continuous CAPTURING
interval (which starts with an empty staging buffer), the concatenation of
all byte ranges passed to the consumer callback equals the byte sequence the
session produced minus the leading pending-byte skip budget, delivered in
capture order, and the staging buffer is cleared again after every wake (in
particular after every callback invocation). -/
theorem C1_direct_delivery (skip : Nat) (ws : List (List (List Nat))) :
    ((runDirectWakes true skip [] [] ws).2.2).flatten =
      ((ws.map List.flatten).flatten).drop skip ∧
    ∀ n, (runDirectWakes true skip [] [] (ws.take n)).2.1 = [] := by
  exact ⟨by simpa using (runDirectWakes_spec ws skip []).2.2,
    fun n => (runDirectWakes_spec (ws.take n) skip []).2.1⟩

/-- Unfolding of an intermediate cycle whose aligned size is positive. -/
theorem intermediateCycle_pos (cb : Bool) (ba : Nat) (st q : List Nat)
    (h : 0 < (st ++ q).length / ba * ba) :
    intermediateCycle cb ba st q =
      ((st ++ q).drop ((st ++ q).length / ba * ba),
       if cb then some ((st ++ q).take ((st ++ q).length / ba * ba)) else none) := by
  unfold intermediateCycle
  rw [if_pos h]

/-- C2: in decoupling (intermediate) mode, every byte range passed to the
consumer callback by a ProcessIntermediate cycle has a length that is an
exact multiple of the format's block alignment, the bytes past the largest
aligned prefix stay in the staging buffer for the next cycle, and draining
4103 bytes with blockAlign 4 delivers exactly 4100 bytes and retains 3. -/
theorem C2_intermediate_alignment :
    (∀ (nBlockAlign : Nat) (staging queued bytes : List Nat),
        (intermediateCycle true nBlockAlign staging queued).2 = some bytes →
        bytes.length % nBlockAlign = 0) ∧
    (∀ (nBlockAlign : Nat) (staging queued : List Nat),
        (intermediateCycle true nBlockAlign staging queued).1 =
          (staging ++ queued).drop
            ((staging ++ queued).length / nBlockAlign * nBlockAlign)) ∧
    (intermediateCycle true 4 [] (List.replicate 4103 0)).2 =
      some (List.replicate 4100 0) ∧
    (intermediateCycle true 4 [] (List.replicate 4103 0)).1 = List.replicate 3 0 := by
  refine ⟨?_, ?_, ?_, ?_⟩
  · intro nBlockAlign staging queued bytes h
    simp only [intermediateCycle, reduceIte] at h
    split at h
    · simp only [Option.some.injEq] at h
      subst h
      rw [List.length_take]
      have hle : (staging ++ queued).length / nBlockAlign * nBlockAlign ≤
          (staging ++ queued).length := Nat.div_mul_le_self _ _
      rw [min_eq_left hle]
      exact Nat.mul_mod_left _ _
    · simp at h
  · intro nBlockAlign staging queued
    simp only [intermediateCycle, reduceIte]
    split
    · rfl
    · rename_i hpos
      have h0 : (staging ++ queued).length / nBlockAlign * nBlockAlign = 0 := by
        by_contra hne
        exact hpos (Nat.pos_of_ne_zero hne)
      rw [h0, List.drop_zero]
  · have hq : (([] : List Nat) ++ List.replicate 4103 0).length / 4 * 4 = 4100 := by
      rw [List.nil_append, List.length_replicate]
    have hc := intermediateCycle_pos true 4 [] (List.replicate 4103 0) (by rw [hq]; decide)
    rw [hq] at hc
    rw [hc, List.nil_append, List.take_replicate, if_pos rfl, min_eq_left (by decide)]
  · have hq : (([] : List Nat) ++ List.replicate 4103 0).length / 4 * 4 = 4100 := by
      rw [List.nil_append, List.length_replicate]
    have hc := intermediateCycle_pos true 4 [] (List.replicate 4103 0) (by rw [hq]; decide)
    rw [hq] at hc
    rw [hc, List.nil_append, List.drop_replicate, show (4103 - 4100 : Nat) = 3 from rfl]

/-- The stored capture format for 48000 Hz, 16-bit, 2-channel PCM. -/
def format48k : WAVEFORMATEX :=
  { wFormatTag := 1, nChannels := 2, nSamplesPerSec := 48000,
    nAvgBytesPerSec := 192000, nBlockAlign := 4, wBitsPerSample := 16 }

/-- Sanity check: format48k is exactly what SetCaptureFormat stores for
48000 Hz / 16-bit / 2-channel PCM. -/
theorem format48k_eq_setter :
    (SetCaptureFormat ProcessLoopbackCapture.initialState 48000 16 2
      WAVE_FORMAT_PCM).1.m_CaptureFormat = format48k := by
  decide

/-- A reachable PAUSED object: configured for format48k, session held,
threads joined and buffers drained by the preceding successful pause. -/
def pausedSample : ProcessLoopbackCapture :=
  { ProcessLoopbackCapture.initialState with
      m_CaptureState := eCaptureState.PAUSED
      m_CaptureFormat := format48k
      m_bCaptureFormatInitialized := true
      m_dwProcessId := 1234
      m_pCallbackFunc := true
      m_bInitMF := true
      m_pAudioClient := true
      m_pAudioCaptureClient := true
      m_hSampleReadyEvent := true }

/-- Closed form of the skip-budget computation of StartThreads when the
threads are not yet running. -/
theorem StartThreads_skip (s : ProcessLoopbackCapture) (d : ℚ)
    (ht : s.m_bThreadsStarted = false) :
    (StartThreads s d).m_dwMainThreadBytesToSkip =
      ((s.m_CaptureFormat.nSamplesPerSec : ℚ) * (if d < 0 then 0 else d)).floor.toNat %
        2 ^ 32 * s.m_CaptureFormat.nBlockAlign % 2 ^ 32 := by
  unfold StartThreads
  rw [if_neg (by rw [ht]; exact Bool.false_ne_true)]
  split <;> split <;> rfl

/-- C4: every configuration setter called while CAPTURING or PAUSED returns
STATE and leaves the object (all stored configuration included) unchanged,
and each setter succeeds only when the state is READY. -/
theorem C4_setters_state_guard (s : ProcessLoopbackCapture)
    (h : s.m_CaptureState = eCaptureState.CAPTURING ∨
      s.m_CaptureState = eCaptureState.PAUSED) :
    (∀ a b c dd, SetCaptureFormat s a b c dd = (s, eCaptureError.STATE)) ∧
    (∀ p b, SetTargetProcess s p b = (s, eCaptureError.STATE)) ∧
    (∀ cb, SetCallback s cb = (s, eCaptureError.STATE)) ∧
    (∀ i, SetCallbackInterval s i = (s, eCaptureError.STATE)) ∧
    (∀ b, SetIntermediateBufferEnabled s b = (s, eCaptureError.STATE)) ∧
    (∀ (u t : ProcessLoopbackCapture) a b c dd,
      SetCaptureFormat u a b c dd = (t, eCaptureError.NONE) →
      u.m_CaptureState = eCaptureState.READY) ∧
    (∀ (u t : ProcessLoopbackCapture) p b,
      SetTargetProcess u p b = (t, eCaptureError.NONE) →
      u.m_CaptureState = eCaptureState.READY) ∧
    (∀ (u t : ProcessLoopbackCapture) cb,
      SetCallback u cb = (t, eCaptureError.NONE) →
      u.m_CaptureState = eCaptureState.READY) ∧
    (∀ (u t : ProcessLoopbackCapture) i,
      SetCallbackInterval u i = (t, eCaptureError.NONE) →
      u.m_CaptureState = eCaptureState.READY) ∧
    (∀ (u t : ProcessLoopbackCapture) b,
      SetIntermediateBufferEnabled u b = (t, eCaptureError.NONE) →
      u.m_CaptureState = eCaptureState.READY) := by
  have hne : s.m_CaptureState ≠ eCaptureState.READY := by
    rcases h with h | h <;> rw [h] <;> intro hc <;> cases hc
  refine ⟨?_, ?_, ?_, ?_, ?_, ?_, ?_, ?_, ?_, ?_⟩
  · intro a b c dd
    unfold SetCaptureFormat
    rw [if_pos hne]
  · intro p b
    unfold SetTargetProcess
    rw [if_pos hne]
  · intro cb
    unfold SetCallback
    rw [if_pos hne]
  · intro i
    unfold SetCallbackInterval
    rw [if_pos hne]
  · intro b
    unfold SetIntermediateBufferEnabled
    rw [if_neg (by simp [PROCESS_LOOPBACK_CAPTURE_QUEUE_AVAILABLE]), if_pos hne]
  · intro u t a b c dd heq
    by_contra hne2
    unfold SetCaptureFormat at heq
    rw [if_pos hne2] at heq
    simp at heq
  · intro u t p b heq
    by_contra hne2
    unfold SetTargetProcess at heq
    rw [if_pos hne2] at heq
    simp at heq
  · intro u t cb heq
    by_contra hne2
    unfold SetCallback at heq
    rw [if_pos hne2] at heq
    simp at heq
  · intro u t i heq
    by_contra hne2
    unfold SetCallbackInterval at heq
    rw [if_pos hne2] at heq
    simp at heq
  · intro u t b heq
    by_contra hne2
    unfold SetIntermediateBufferEnabled at heq
    rw [if_neg (by simp [PROCESS_LOOPBACK_CAPTURE_QUEUE_AVAILABLE]),
      if_pos hne2] at heq
    simp at heq

/-- Witness for C4: every setter applied to a PAUSED object returns STATE and
leaves the object unchanged. -/
theorem C4_setters_state_guard_witness :
    SetCaptureFormat pausedSample 48000 16 2 WAVE_FORMAT_PCM =
      (pausedSample, eCaptureError.STATE) ∧
    SetTargetProcess pausedSample 42 true = (pausedSample, eCaptureError.STATE) ∧
    SetCallback pausedSample true = (pausedSample, eCaptureError.STATE) ∧
    SetCallbackInterval pausedSample 50 = (pausedSample, eCaptureError.STATE) ∧
    SetIntermediateBufferEnabled pausedSample true =
      (pausedSample, eCaptureError.STATE) := by
  have h := C4_setters_state_guard pausedSample (Or.inr rfl)
  exact ⟨h.1 48000 16 2 WAVE_FORMAT_PCM, h.2.1 42 true, h.2.2.1 true,
    h.2.2.2.1 50, h.2.2.2.2.1 true⟩

/-- Arithmetic facts about the field values SetCaptureFormat stores: all the
WORD/DWORD casts are value-preserving under the validated bounds. -/
theorem format_fields (sr cc bd2 : Nat) (h1 : sr ≤ 384000) (h2 : cc ≤ 1024)
    (h3 : bd2 ≤ 32) :
    cc % 2 ^ 16 = cc ∧ sr % 2 ^ 32 = sr ∧ bd2 % 2 ^ 16 = bd2 ∧
    cc % 2 ^ 16 * (bd2 % 2 ^ 16) / CHAR_BIT % 2 ^ 16 =
      cc % 2 ^ 16 * (bd2 % 2 ^ 16) / CHAR_BIT ∧
    sr % 2 ^ 32 * (cc % 2 ^ 16 * (bd2 % 2 ^ 16) / CHAR_BIT % 2 ^ 16) % 2 ^ 32 =
      sr % 2 ^ 32 * (cc % 2 ^ 16 * (bd2 % 2 ^ 16) / CHAR_BIT % 2 ^ 16) := by
  have hc : cc % 2 ^ 16 = cc := Nat.mod_eq_of_lt (by omega)
  have hs : sr % 2 ^ 32 = sr := Nat.mod_eq_of_lt (by omega)
  have hb : bd2 % 2 ^ 16 = bd2 := Nat.mod_eq_of_lt (by omega)
  have hprod : cc * bd2 ≤ 32768 := le_trans (Nat.mul_le_mul h2 h3) (by norm_num)
  have hdiv : cc * bd2 / CHAR_BIT ≤ 4096 := by
    simp only [CHAR_BIT]
    omega
  have hba : cc % 2 ^ 16 * (bd2 % 2 ^ 16) / CHAR_BIT % 2 ^ 16 =
      cc % 2 ^ 16 * (bd2 % 2 ^ 16) / CHAR_BIT := by
    rw [hc, hb]
    exact Nat.mod_eq_of_lt (by omega)
  refine ⟨hc, hs, hb, hba, ?_⟩
  rw [hs]
  have hbale : cc % 2 ^ 16 * (bd2 % 2 ^ 16) / CHAR_BIT % 2 ^ 16 ≤ 4096 := by
    rw [hba, hc, hb]
    exact hdiv
  exact Nat.mod_eq_of_lt (lt_of_le_of_lt (Nat.mul_le_mul h1 hbale) (by norm_num))

/-- C8: SetCaptureFormat while READY returns PARAM exactly when sampleRate,
bitDepth or channelCount fall outside the supported bounds or the tag is
neither PCM nor IEEE float; on success the stored format has bitDepth forced
to 32 for an IEEE-float tag, blockAlign = channelCount × bitDepth/8 and
avgBytesPerSec = sampleRate × blockAlign. -/
theorem C8_SetCaptureFormat_spec (s : ProcessLoopbackCapture)
    (hready : s.m_CaptureState = eCaptureState.READY)
    (iSampleRate iBitDepth iChannelCount iFormatTag : Nat) :
    ((SetCaptureFormat s iSampleRate iBitDepth iChannelCount iFormatTag).2 =
        eCaptureError.PARAM ↔
      (iSampleRate < LoopbackCaptureConst.MIN_SAMPLE_RATE ∨
       iSampleRate > LoopbackCaptureConst.MAX_SAMPLE_RATE ∨
       iBitDepth = 0 ∨ iBitDepth > LoopbackCaptureConst.MAX_BIT_DEPTH ∨
       iBitDepth % CHAR_BIT ≠ 0 ∨
       iChannelCount < LoopbackCaptureConst.MIN_CHANNEL_COUNT ∨
       iChannelCount > LoopbackCaptureConst.MAX_CHANNEL_COUNT ∨
       (iFormatTag ≠ WAVE_FORMAT_PCM ∧ iFormatTag ≠ WAVE_FORMAT_IEEE_FLOAT))) ∧
    (∀ t, SetCaptureFormat s iSampleRate iBitDepth iChannelCount iFormatTag =
        (t, eCaptureError.NONE) →
      (iFormatTag = WAVE_FORMAT_IEEE_FLOAT → t.m_CaptureFormat.wBitsPerSample = 32) ∧
      (iFormatTag = WAVE_FORMAT_PCM → t.m_CaptureFormat.wBitsPerSample = iBitDepth) ∧
      t.m_CaptureFormat.nChannels = iChannelCount ∧
      t.m_CaptureFormat.nSamplesPerSec = iSampleRate ∧
      t.m_CaptureFormat.nBlockAlign =
        t.m_CaptureFormat.nChannels * t.m_CaptureFormat.wBitsPerSample / CHAR_BIT ∧
      t.m_CaptureFormat.nAvgBytesPerSec =
        t.m_CaptureFormat.nSamplesPerSec * t.m_CaptureFormat.nBlockAlign) := by
  constructor
  · unfold SetCaptureFormat
    rw [if_neg (fun hc => hc hready)]
    split_ifs with h1 h2 h3 h4
    · exact iff_of_true rfl (by tauto)
    · exact iff_of_true rfl (by tauto)
    · exact iff_of_true rfl (by tauto)
    · exact iff_of_true rfl (by tauto)
    · exact iff_of_false (by simp) (by tauto)
  · intro t heq
    unfold SetCaptureFormat at heq
    rw [if_neg (fun hc => hc hready)] at heq
    split_ifs at heq with h1 h2 h3 h4 hfl
    · simp at heq
    · simp at heq
    · simp at heq
    · simp at heq
    · -- success, IEEE-float tag: bit depth forced to 4 * CHAR_BIT = 32
      injection heq with hrec hne
      subst hrec
      push_neg at h1 h2 h3
      simp only [LoopbackCaptureConst.MIN_SAMPLE_RATE,
        LoopbackCaptureConst.MAX_SAMPLE_RATE] at h1
      simp only [LoopbackCaptureConst.MIN_CHANNEL_COUNT,
        LoopbackCaptureConst.MAX_CHANNEL_COUNT] at h3
      obtain ⟨hc, hs, hb, hba, havg⟩ :=
        format_fields iSampleRate iChannelCount (4 * CHAR_BIT) h1.2 h3.2 (by decide)
      refine ⟨fun _ => ?_, fun hpcm => absurd (hfl ▸ hpcm) (by decide),
        hc, hs, hba, havg⟩
      show 4 * CHAR_BIT % 2 ^ 16 = 32
      decide
    · -- success, PCM tag: bit depth kept
      injection heq with hrec hne
      subst hrec
      push_neg at h1 h2 h3
      simp only [LoopbackCaptureConst.MIN_SAMPLE_RATE,
        LoopbackCaptureConst.MAX_SAMPLE_RATE] at h1
      simp only [LoopbackCaptureConst.MAX_BIT_DEPTH] at h2
      simp only [LoopbackCaptureConst.MIN_CHANNEL_COUNT,
        LoopbackCaptureConst.MAX_CHANNEL_COUNT] at h3
      obtain ⟨hc, hs, hb, hba, havg⟩ :=
        format_fields iSampleRate iChannelCount iBitDepth h1.2 h3.2 h2.2.1
      exact ⟨fun hfl2 => absurd hfl2 hfl, fun _ => hb, hc, hs, hba, havg⟩

/-- Witness for C8: on the freshly constructed READY object, a valid format
is accepted and a sample rate below the minimum is rejected with PARAM. -/
theorem C8_SetCaptureFormat_spec_witness :
    (SetCaptureFormat ProcessLoopbackCapture.initialState 48000 16 2
      WAVE_FORMAT_PCM).2 ≠ eCaptureError.PARAM ∧
    (SetCaptureFormat ProcessLoopbackCapture.initialState 999 16 2
      WAVE_FORMAT_PCM).2 = eCaptureError.PARAM := by
  have h1 := C8_SetCaptureFormat_spec ProcessLoopbackCapture.initialState rfl
    48000 16 2 WAVE_FORMAT_PCM
  have h2 := C8_SetCaptureFormat_spec ProcessLoopbackCapture.initialState rfl
    999 16 2 WAVE_FORMAT_PCM
  constructor
  · intro hbad
    have hx := h1.1.mp hbad
    revert hx
    decide
  · exact h2.1.mpr (Or.inl (by decide))

/-- Reset always lands in READY with the capture client, audio client and
event released and the worker threads stopped. -/
theorem Reset_fields (u : ProcessLoopbackCapture) :
    u.Reset.m_CaptureState = eCaptureState.READY ∧
    u.Reset.m_pAudioClient = false ∧
    u.Reset.m_pAudioCaptureClient = false ∧
    u.Reset.m_hSampleReadyEvent = false ∧
    u.Reset.m_bThreadsStarted = false := by
  unfold ProcessLoopbackCapture.Reset StopThreads
  split
  · rename_i h
    exact ⟨rfl, rfl, rfl, rfl, by simpa using h⟩
  · exact ⟨rfl, rfl, rfl, rfl, rfl⟩

/-- Any failing StartCapture leaves (or puts) the object in READY with all
session resources released and the worker threads never started. -/
theorem StartCapture_fail_rollback (s : ProcessLoopbackCapture)
    (hready : s.m_CaptureState = eCaptureState.READY)
    (h1 : s.m_pAudioClient = false) (h2 : s.m_pAudioCaptureClient = false)
    (h3 : s.m_hSampleReadyEvent = false) (h4 : s.m_bThreadsStarted = false)
    (env : StartEnv) (hfail : (StartCapture s env).2 ≠ eCaptureError.NONE) :
    (StartCapture s env).1.m_CaptureState = eCaptureState.READY ∧
    (StartCapture s env).1.m_pAudioClient = false ∧
    (StartCapture s env).1.m_pAudioCaptureClient = false ∧
    (StartCapture s env).1.m_hSampleReadyEvent = false ∧
    (StartCapture s env).1.m_bThreadsStarted = false := by
  unfold StartCapture at hfail ⊢
  split_ifs at hfail ⊢ with g1 g2 g3 g4 g5 g6 g7 g8 g9
  all_goals first
    | exact absurd hready g1
    | exact absurd rfl hfail
    | exact ⟨hready, h1, h2, h3, h4⟩
    | exact Reset_fields _

/-- StartCapture from a READY resource-free object with a format and a
target set succeeds in the all-successful environment and lands CAPTURING. -/
theorem StartCapture_ok (s : ProcessLoopbackCapture)
    (hready : s.m_CaptureState = eCaptureState.READY)
    (hfmt : s.m_bCaptureFormatInitialized = true) (hpid : s.m_dwProcessId ≠ 0) :
    (StartCapture s StartEnv.allOk).2 = eCaptureError.NONE ∧
    (StartCapture s StartEnv.allOk).1.m_CaptureState = eCaptureState.CAPTURING := by
  unfold StartCapture
  rw [if_neg (fun hc => hc hready), if_neg (by simp [hfmt]), if_neg hpid,
    if_neg (by decide), if_neg (by decide), if_neg (by decide), if_neg (by decide),
    if_neg (by decide), if_neg (by decide)]
  exact ⟨rfl, rfl⟩

/-- SetCaptureFormat with the concrete valid parameters 48000/16/2/PCM on a
READY object stores format48k and reports success. -/
theorem SetCaptureFormat_concrete (u : ProcessLoopbackCapture)
    (hready : u.m_CaptureState = eCaptureState.READY) :
    SetCaptureFormat u 48000 16 2 WAVE_FORMAT_PCM =
      ({ u with m_CaptureFormat := format48k, m_bCaptureFormatInitialized := true },
       eCaptureError.NONE) := by
  unfold SetCaptureFormat
  rw [if_neg (fun hc => hc hready), if_neg (by decide), if_neg (by decide),
    if_neg (by decide), if_neg (by decide)]
  rfl

/-- SetTargetProcess with the concrete nonzero process id 1234 on a READY
object stores the target and reports success. -/
theorem SetTargetProcess_concrete (u : ProcessLoopbackCapture)
    (hready : u.m_CaptureState = eCaptureState.READY) :
    SetTargetProcess u 1234 true =
      ({ u with m_dwProcessId := 1234, m_bProcessInclusive := true },
       eCaptureError.NONE) := by
  unfold SetTargetProcess
  rw [if_neg (fun hc => hc hready), if_neg (by decide)]

/-- C5: StartCapture while READY without a stored format returns FORMAT and
changes nothing; with a format but a zero target process returns PROCESSID
and changes nothing; after any failed StartCapture the state is READY with
session and event released and threads never started; and a subsequent
StartCapture with corrected inputs (valid format, nonzero process id,
healthy environment) succeeds. -/
theorem C5_StartCapture_failure_paths (s : ProcessLoopbackCapture)
    (hready : s.m_CaptureState = eCaptureState.READY)
    (h1 : s.m_pAudioClient = false) (h2 : s.m_pAudioCaptureClient = false)
    (h3 : s.m_hSampleReadyEvent = false) (h4 : s.m_bThreadsStarted = false) :
    (s.m_bCaptureFormatInitialized = false →
      ∀ env, StartCapture s env = (s, eCaptureError.FORMAT)) ∧
    (s.m_bCaptureFormatInitialized = true → s.m_dwProcessId = 0 →
      ∀ env, StartCapture s env = (s, eCaptureError.PROCESSID)) ∧
    (∀ env, (StartCapture s env).2 ≠ eCaptureError.NONE →
      (StartCapture s env).1.m_CaptureState = eCaptureState.READY ∧
      (StartCapture s env).1.m_pAudioClient = false ∧
      (StartCapture s env).1.m_pAudioCaptureClient = false ∧
      (StartCapture s env).1.m_hSampleReadyEvent = false ∧
      (StartCapture s env).1.m_bThreadsStarted = false) ∧
    (∀ env, (StartCapture s env).2 ≠ eCaptureError.NONE →
      (SetCaptureFormat (StartCapture s env).1 48000 16 2 WAVE_FORMAT_PCM).2 =
        eCaptureError.NONE ∧
      ∀ t1, SetCaptureFormat (StartCapture s env).1 48000 16 2 WAVE_FORMAT_PCM =
          (t1, eCaptureError.NONE) →
        (SetTargetProcess t1 1234 true).2 = eCaptureError.NONE ∧
        ∀ t2, SetTargetProcess t1 1234 true = (t2, eCaptureError.NONE) →
          (StartCapture t2 StartEnv.allOk).2 = eCaptureError.NONE ∧
          (StartCapture t2 StartEnv.allOk).1.m_CaptureState =
            eCaptureState.CAPTURING) := by
  refine ⟨?_, ?_, ?_, ?_⟩
  · intro hfmt env
    unfold StartCapture
    rw [if_neg (fun hc => hc hready), if_pos (by simp [hfmt])]
  · intro hfmt hpid env
    unfold StartCapture
    rw [if_neg (fun hc => hc hready), if_neg (by simp [hfmt]), if_pos hpid]
  · intro env hfail
    exact StartCapture_fail_rollback s hready h1 h2 h3 h4 env hfail
  · intro env hfail
    obtain ⟨r1, r2, r3, r4, r5⟩ :=
      StartCapture_fail_rollback s hready h1 h2 h3 h4 env hfail
    have hA := SetCaptureFormat_concrete _ r1
    refine ⟨by rw [hA], ?_⟩
    intro t1 ht1
    rw [hA] at ht1
    have hrec : _ = t1 := congrArg Prod.fst ht1
    have hq1 : t1.m_CaptureState = eCaptureState.READY := by
      rw [← hrec]
      exact r1
    have hq2 : t1.m_bCaptureFormatInitialized = true := by
      rw [← hrec]
    have hB := SetTargetProcess_concrete t1 hq1
    refine ⟨by rw [hB], ?_⟩
    intro t2 ht2
    rw [hB] at ht2
    have hrec2 : _ = t2 := congrArg Prod.fst ht2
    have hq3 : t2.m_CaptureState = eCaptureState.READY := by
      rw [← hrec2]
      exact hq1
    have hq4 : t2.m_bCaptureFormatInitialized = true := by
      rw [← hrec2]
      exact hq2
    have hq5 : t2.m_dwProcessId ≠ 0 := by
      rw [← hrec2]
      exact (by decide : (1234 : Nat) ≠ 0)
    exact StartCapture_ok t2 hq3 hq4 hq5

/-- Witness for C5: on the freshly constructed object (no format stored),
StartCapture fails with FORMAT and changes nothing. -/
theorem C5_StartCapture_failure_paths_witness :
    StartCapture ProcessLoopbackCapture.initialState StartEnv.allOk =
      (ProcessLoopbackCapture.initialState, eCaptureError.FORMAT) ∧
    (StartCapture ProcessLoopbackCapture.initialState StartEnv.allOk).1.m_CaptureState =
      eCaptureState.READY := by
  have h := C5_StartCapture_failure_paths ProcessLoopbackCapture.initialState
    rfl rfl rfl rfl rfl
  have hf := h.1 rfl StartEnv.allOk
  exact ⟨hf, by rw [hf]; rfl⟩

/-- Projections of a successful all-ok StartCapture beyond the error code
and the state: the threads are running and the format, queue and staging
vector are carried over unchanged. -/
theorem StartCapture_ok_fields (s : ProcessLoopbackCapture)
    (hready : s.m_CaptureState = eCaptureState.READY)
    (hfmt : s.m_bCaptureFormatInitialized = true) (hpid : s.m_dwProcessId ≠ 0) :
    (StartCapture s StartEnv.allOk).1.m_bThreadsStarted = true ∧
    (StartCapture s StartEnv.allOk).1.m_CaptureFormat = s.m_CaptureFormat ∧
    (StartCapture s StartEnv.allOk).1.m_Queue = s.m_Queue ∧
    (StartCapture s StartEnv.allOk).1.m_vecIntermediateBuffer =
      s.m_vecIntermediateBuffer := by
  unfold StartCapture
  rw [if_neg (fun hc => hc hready), if_neg (by simp [hfmt]), if_neg hpid,
    if_neg (by decide), if_neg (by decide), if_neg (by decide), if_neg (by decide),
    if_neg (by decide), if_neg (by decide)]
  unfold StartThreads
  split
  · rename_i h
    exact ⟨by simpa using h, rfl, rfl, rfl⟩
  · split <;> split <;> exact ⟨rfl, rfl, rfl, rfl⟩

/-- Projections of a successful PauseCapture (session stop returned S_OK)
from a CAPTURING state with the threads running: the queue is flushed, the
staging vector cleared, the threads stopped, and the state is PAUSED; the
format and the pending-byte budget are untouched. -/
theorem PauseCapture_ok_state (u : ProcessLoopbackCapture)
    (hc : u.m_CaptureState = eCaptureState.CAPTURING)
    (hth : u.m_bThreadsStarted = true) :
    (PauseCapture u 0).2 = eCaptureError.NONE ∧
    (PauseCapture u 0).1.m_CaptureState = eCaptureState.PAUSED ∧
    (PauseCapture u 0).1.m_bThreadsStarted = false ∧
    (PauseCapture u 0).1.m_Queue = [] ∧
    (PauseCapture u 0).1.m_vecIntermediateBuffer = [] ∧
    (PauseCapture u 0).1.m_CaptureFormat = u.m_CaptureFormat ∧
    (PauseCapture u 0).1.m_dwMainThreadBytesToSkip =
      u.m_dwMainThreadBytesToSkip := by
  unfold PauseCapture
  rw [if_neg (fun hx => hx hc), if_neg (by norm_num)]
  unfold StopThreads
  rw [if_neg (by simp [hth])]
  exact ⟨rfl, rfl, rfl, rfl, rfl, rfl, rfl⟩

/-- Projections of a successful ResumeCapture (session start returned S_OK)
from a PAUSED state with the threads stopped: the state is CAPTURING again,
the threads run, the queue and staging vector are carried over, and the
pending-byte budget is recomputed by StartThreads. -/
theorem ResumeCapture_ok_state (u : ProcessLoopbackCapture) (d : ℚ)
    (hp : u.m_CaptureState = eCaptureState.PAUSED)
    (hth : u.m_bThreadsStarted = false) :
    (ResumeCapture u d 0).2 = eCaptureError.NONE ∧
    (ResumeCapture u d 0).1.m_CaptureState = eCaptureState.CAPTURING ∧
    (ResumeCapture u d 0).1.m_bThreadsStarted = true ∧
    (ResumeCapture u d 0).1.m_Queue = u.m_Queue ∧
    (ResumeCapture u d 0).1.m_vecIntermediateBuffer = u.m_vecIntermediateBuffer ∧
    (ResumeCapture u d 0).1.m_dwMainThreadBytesToSkip =
      ((u.m_CaptureFormat.nSamplesPerSec : ℚ) *
        (if d < 0 then 0 else d)).floor.toNat % 2 ^ 32 *
        u.m_CaptureFormat.nBlockAlign % 2 ^ 32 := by
  unfold ResumeCapture
  rw [if_neg (fun hx => hx hp), if_neg (by norm_num)]
  unfold StartThreads
  rw [if_neg (by simp [hth])]
  split <;> split <;> exact ⟨rfl, rfl, rfl, rfl, rfl, rfl⟩

/-- Reset leaves the pending-byte budget untouched, clears the buffers when
the threads were running, and carries them over otherwise. -/
theorem Reset_buffers (u : ProcessLoopbackCapture) :
    u.Reset.m_dwMainThreadBytesToSkip = u.m_dwMainThreadBytesToSkip ∧
    (u.m_bThreadsStarted = true →
      u.Reset.m_Queue = [] ∧ u.Reset.m_vecIntermediateBuffer = []) ∧
    (u.m_bThreadsStarted = false →
      u.Reset.m_Queue = u.m_Queue ∧
      u.Reset.m_vecIntermediateBuffer = u.m_vecIntermediateBuffer) := by
  unfold ProcessLoopbackCapture.Reset StopThreads
  split
  · rename_i h
    refine ⟨rfl, fun hc => absurd hc (by simpa using h), fun _ => ⟨rfl, rfl⟩⟩
  · rename_i h
    refine ⟨rfl, fun _ => ⟨rfl, rfl⟩, fun hc => ?_⟩
    rw [not_not.mp h] at hc
    exact Bool.noConfusion hc

/-- A READY object configured with format48k and target process 1234, as
left by SetCaptureFormat and SetTargetProcess on a fresh object. -/
def cfgState : ProcessLoopbackCapture :=
  { ProcessLoopbackCapture.initialState with
      m_CaptureFormat := format48k
      m_bCaptureFormatInitialized := true
      m_dwProcessId := 1234
      m_bProcessInclusive := true }

/-- The object after configure → StartCapture → PauseCapture →
ResumeCapture(0.1 s) → StopCapture with every external call succeeding. -/
def cycleEndState : ProcessLoopbackCapture :=
  (StopCapture
    (ResumeCapture
      (PauseCapture
        (StartCapture
          (SetTargetProcess
            (SetCaptureFormat ProcessLoopbackCapture.initialState 48000 16 2
              WAVE_FORMAT_PCM).1
            1234 true).1
          StartEnv.allOk).1
        0).1
      (1/10) 0).1).1

/-- StartThreads with a zero skip duration computes a zero budget. -/
theorem StartThreads_zero_skip (v : ProcessLoopbackCapture)
    (hth : v.m_bThreadsStarted = false) :
    (StartThreads v 0).m_dwMainThreadBytesToSkip = 0 := by
  rw [StartThreads_skip v 0 hth, if_neg (by norm_num : ¬((0 : ℚ) < 0))]
  simp [ratFloorEq]

/-- A plain StartCapture (skip duration 0) from an object whose threads are
stopped computes a zero pending-byte budget. -/
theorem StartCapture_ok_budget (u : ProcessLoopbackCapture)
    (hready : u.m_CaptureState = eCaptureState.READY)
    (hfmt : u.m_bCaptureFormatInitialized = true) (hpid : u.m_dwProcessId ≠ 0)
    (hth : u.m_bThreadsStarted = false) :
    (StartCapture u StartEnv.allOk).1.m_dwMainThreadBytesToSkip = 0 := by
  unfold StartCapture
  rw [if_neg (fun hc => hc hready), if_neg (by simp [hfmt]), if_neg hpid,
    if_neg (by decide), if_neg (by decide), if_neg (by decide), if_neg (by decide),
    if_neg (by decide), if_neg (by decide)]
  exact StartThreads_zero_skip _ hth

/-- C6 counterexample: after Start → Pause → Resume(0.1 s) → Stop on a
48000 Hz / blockAlign 4 session, the object is READY with empty buffers, but
the pending-byte budget still holds 19200 — StopCapture does not reset it to
zero as the claim states. -/
theorem C6_budget_not_reset_counterexample :
    cycleEndState.m_CaptureState = eCaptureState.READY ∧
    cycleEndState.m_Queue = [] ∧
    cycleEndState.m_vecIntermediateBuffer = [] ∧
    cycleEndState.m_dwMainThreadBytesToSkip = 19200 := by
  have h1 := SetCaptureFormat_concrete ProcessLoopbackCapture.initialState rfl
  have hchain : (SetTargetProcess (SetCaptureFormat ProcessLoopbackCapture.initialState
      48000 16 2 WAVE_FORMAT_PCM).1 1234 true).1 = cfgState := by
    rw [h1]
    rfl
  unfold cycleEndState
  rw [hchain]
  have hst := StartCapture_ok cfgState rfl rfl (by decide)
  have hstf := StartCapture_ok_fields cfgState rfl rfl (by decide)
  have hpa := PauseCapture_ok_state (StartCapture cfgState StartEnv.allOk).1
    hst.2 hstf.1
  have hre := ResumeCapture_ok_state
    (PauseCapture (StartCapture cfgState StartEnv.allOk).1 0).1
    (1/10) hpa.2.1 hpa.2.2.1
  have hs5ne : ¬((ResumeCapture (PauseCapture (StartCapture cfgState
      StartEnv.allOk).1 0).1 (1/10) 0).1.m_CaptureState = eCaptureState.READY) := by
    rw [hre.2.1]
    decide
  have hstop : StopCapture (ResumeCapture (PauseCapture (StartCapture cfgState
      StartEnv.allOk).1 0).1 (1/10) 0).1 =
      ((ResumeCapture (PauseCapture (StartCapture cfgState StartEnv.allOk).1 0).1
        (1/10) 0).1.Reset, eCaptureError.NONE) := by
    unfold StopCapture
    rw [if_neg hs5ne]
  rw [hstop]
  have hrb := Reset_buffers (ResumeCapture (PauseCapture (StartCapture cfgState
    StartEnv.allOk).1 0).1 (1/10) 0).1
  have hrf := Reset_fields (ResumeCapture (PauseCapture (StartCapture cfgState
    StartEnv.allOk).1 0).1 (1/10) 0).1
  refine ⟨hrf.1, (hrb.2.1 hre.2.2.1).1, (hrb.2.1 hre.2.2.1).2, ?_⟩
  rw [hrb.1, hre.2.2.2.2.2]
  have hfmt4 : (PauseCapture (StartCapture cfgState StartEnv.allOk).1 0).1.m_CaptureFormat
      = format48k := by
    rw [hpa.2.2.2.2.2.1, hstf.2.1]
    rfl
  rw [hfmt4]
  show (((48000 : Nat) : ℚ) * (if (1/10 : ℚ) < 0 then 0 else (1/10 : ℚ))).floor.toNat
    % 2 ^ 32 * 4 % 2 ^ 32 = 19200
  norm_num [ratFloorEq]
  decide

/-- C6 (amended): from every non-READY state StopCapture returns to READY
with session and event released, threads stopped and both buffers cleared
(given the invariant that stopped threads leave the buffers empty); the
pending-byte budget is left unchanged by StopCapture rather than reset, but
every plain StartCapture recomputes it to zero, so a repeated Start → Stop
cycle leaves the object READY with empty buffers and a zero budget. -/
theorem C6_stop_reset_amended (s : ProcessLoopbackCapture)
    (hne : s.m_CaptureState ≠ eCaptureState.READY)
    (hbuf : s.m_bThreadsStarted = false →
      s.m_Queue = [] ∧ s.m_vecIntermediateBuffer = []) :
    (StopCapture s).2 = eCaptureError.NONE ∧
    (StopCapture s).1.m_CaptureState = eCaptureState.READY ∧
    (StopCapture s).1.m_pAudioClient = false ∧
    (StopCapture s).1.m_pAudioCaptureClient = false ∧
    (StopCapture s).1.m_hSampleReadyEvent = false ∧
    (StopCapture s).1.m_bThreadsStarted = false ∧
    (StopCapture s).1.m_Queue = [] ∧
    (StopCapture s).1.m_vecIntermediateBuffer = [] ∧
    (StopCapture s).1.m_dwMainThreadBytesToSkip = s.m_dwMainThreadBytesToSkip ∧
    (∀ u : ProcessLoopbackCapture, u.m_CaptureState = eCaptureState.READY →
      u.m_pAudioClient = false → u.m_pAudioCaptureClient = false →
      u.m_hSampleReadyEvent = false → u.m_bThreadsStarted = false →
      u.m_bCaptureFormatInitialized = true → u.m_dwProcessId ≠ 0 →
      (StopCapture (StartCapture u StartEnv.allOk).1).2 = eCaptureError.NONE ∧
      (StopCapture (StartCapture u StartEnv.allOk).1).1.m_CaptureState =
        eCaptureState.READY ∧
      (StopCapture (StartCapture u StartEnv.allOk).1).1.m_Queue = [] ∧
      (StopCapture (StartCapture u StartEnv.allOk).1).1.m_vecIntermediateBuffer = [] ∧
      (StopCapture (StartCapture u StartEnv.allOk).1).1.m_dwMainThreadBytesToSkip
        = 0) := by
  have hstop : StopCapture s = (s.Reset, eCaptureError.NONE) := by
    unfold StopCapture
    rw [if_neg hne]
  have hq : (StopCapture s).1.m_Queue = [] ∧
      (StopCapture s).1.m_vecIntermediateBuffer = [] := by
    rw [hstop]
    rcases Bool.eq_false_or_eq_true s.m_bThreadsStarted with hth | hth
    · exact (Reset_buffers s).2.1 hth
    · obtain ⟨hq1, hq2⟩ := hbuf hth
      obtain ⟨-, -, hpres⟩ := Reset_buffers s
      obtain ⟨hp1, hp2⟩ := hpres hth
      exact ⟨hp1.trans hq1, hp2.trans hq2⟩
  refine ⟨by rw [hstop], by rw [hstop]; exact (Reset_fields s).1,
    by rw [hstop]; exact (Reset_fields s).2.1,
    by rw [hstop]; exact (Reset_fields s).2.2.1,
    by rw [hstop]; exact (Reset_fields s).2.2.2.1,
    by rw [hstop]; exact (Reset_fields s).2.2.2.2,
    hq.1, hq.2, by rw [hstop]; exact (Reset_buffers s).1, ?_⟩
  intro u hu1 hu2 hu3 hu4 hu5 hu6 hu7
  have hok := StartCapture_ok u hu1 hu6 hu7
  have hof := StartCapture_ok_fields u hu1 hu6 hu7
  have hob := StartCapture_ok_budget u hu1 hu6 hu7 hu5
  have hne2 : ¬((StartCapture u StartEnv.allOk).1.m_CaptureState =
      eCaptureState.READY) := by
    rw [hok.2]
    decide
  have hstop2 : StopCapture (StartCapture u StartEnv.allOk).1 =
      ((StartCapture u StartEnv.allOk).1.Reset, eCaptureError.NONE) := by
    unfold StopCapture
    rw [if_neg hne2]
  rw [hstop2]
  have hrb := Reset_buffers (StartCapture u StartEnv.allOk).1
  have hrf := Reset_fields (StartCapture u StartEnv.allOk).1
  exact ⟨rfl, hrf.1, (hrb.2.1 hof.1).1, (hrb.2.1 hof.1).2, hrb.1.trans hob⟩

/-- Witness for C6 (amended): stopping the PAUSED sample object lands READY
with the budget carried over, and a full Start → Stop cycle from the
configured READY object ends with a zero budget. -/
theorem C6_stop_reset_amended_witness :
    (StopCapture pausedSample).2 = eCaptureError.NONE ∧
    (StopCapture pausedSample).1.m_CaptureState = eCaptureState.READY ∧
    (StopCapture pausedSample).1.m_dwMainThreadBytesToSkip =
      pausedSample.m_dwMainThreadBytesToSkip ∧
    (StopCapture (StartCapture cfgState StartEnv.allOk).1).1.m_dwMainThreadBytesToSkip
      = 0 := by
  have h := C6_stop_reset_amended pausedSample (by decide) (fun _ => ⟨rfl, rfl⟩)
  exact ⟨h.1, h.2.1, h.2.2.2.2.2.2.2.2.1,
    (h.2.2.2.2.2.2.2.2.2 cfgState rfl rfl rfl rfl rfl rfl (by decide)).2.2.2.2⟩

/-- C7: a successful PauseCapture discards every in-flight byte — the
handoff queue is flushed and the staging buffer cleared — and after a
subsequent ResumeCapture the queue and staging buffer are still empty, so a
resumed direct-mode interval delivers exactly the post-resume session bytes
(minus the new skip budget): no pre-pause byte is ever delivered. -/
theorem C7_pause_discards_in_flight (s : ProcessLoopbackCapture)
    (hc : s.m_CaptureState = eCaptureState.CAPTURING)
    (hth : s.m_bThreadsStarted = true) :
    (PauseCapture s 0).2 = eCaptureError.NONE ∧
    (PauseCapture s 0).1.m_Queue = [] ∧
    (PauseCapture s 0).1.m_vecIntermediateBuffer = [] ∧
    (∀ d : ℚ, (ResumeCapture (PauseCapture s 0).1 d 0).1.m_Queue = [] ∧
      (ResumeCapture (PauseCapture s 0).1 d 0).1.m_vecIntermediateBuffer = [] ∧
      ∀ budget ws, budget =
          (ResumeCapture (PauseCapture s 0).1 d 0).1.m_dwMainThreadBytesToSkip →
        ((runDirectWakes true budget [] [] ws).2.2).flatten =
          ((ws.map List.flatten).flatten).drop budget) := by
  have hpa := PauseCapture_ok_state s hc hth
  refine ⟨hpa.1, hpa.2.2.2.1, hpa.2.2.2.2.1, ?_⟩
  intro d
  have hre := ResumeCapture_ok_state (PauseCapture s 0).1 d hpa.2.1 hpa.2.2.1
  refine ⟨hre.2.2.2.1.trans hpa.2.2.2.1, hre.2.2.2.2.1.trans hpa.2.2.2.2.1, ?_⟩
  intro budget ws hbudget
  simpa using (runDirectWakes_spec ws budget []).2.2

/-- A CAPTURING object with worker threads running and in-flight bytes: three
bytes in the handoff queue, two staged. -/
def capturingInFlight : ProcessLoopbackCapture :=
  { pausedSample with
      m_CaptureState := eCaptureState.CAPTURING
      m_bThreadsStarted := true
      m_bRunMainAudioThread := true
      m_bRunQueueAudioThread := true
      m_Queue := [1, 2, 3]
      m_vecIntermediateBuffer := [4, 5] }

/-- Witness for C7: pausing the in-flight sample object discards its three
queued and two staged bytes. -/
theorem C7_pause_discards_in_flight_witness :
    capturingInFlight.m_Queue = [1, 2, 3] ∧
    capturingInFlight.m_vecIntermediateBuffer = [4, 5] ∧
    (PauseCapture capturingInFlight 0).2 = eCaptureError.NONE ∧
    (PauseCapture capturingInFlight 0).1.m_Queue = [] ∧
    (PauseCapture capturingInFlight 0).1.m_vecIntermediateBuffer = [] := by
  have h := C7_pause_discards_in_flight capturingInFlight rfl rfl
  exact ⟨rfl, rfl, h.1, h.2.1, h.2.2.1⟩

/-- The async-activation blocking adapter: one atomic boolean flag. -/
structure ActivateAudioInterfaceAsyncCallback where
  m_bActivateFinished : Bool
deriving DecidableEq

namespace ActivateAudioInterfaceAsyncCallback

/-- Reset clears the flag. -/
def Reset (a : ActivateAudioInterfaceAsyncCallback) :
    ActivateAudioInterfaceAsyncCallback :=
  { a with m_bActivateFinished := false }

/-- The constructor calls Reset, so the flag starts unset. -/
def constructed : ActivateAudioInterfaceAsyncCallback :=
  Reset { m_bActivateFinished := false }

/-- ActivateCompleted sets the flag (and notifies one waiter). -/
def ActivateCompleted (a : ActivateAudioInterfaceAsyncCallback) :
    ActivateAudioInterfaceAsyncCallback :=
  { a with m_bActivateFinished := true }

/-- Wait blocks on the atomic flag while it is false: it can return exactly
when the flag is true. -/
def WaitReturns (a : ActivateAudioInterfaceAsyncCallback) : Bool :=
  a.m_bActivateFinished

/-- Wait performs no state change at all: in particular it does not clear
the flag on return. -/
def WaitPost (a : ActivateAudioInterfaceAsyncCallback) :
    ActivateAudioInterfaceAsyncCallback :=
  a

end ActivateAudioInterfaceAsyncCallback

/-- C9 counterexample: after the completion handler fires and Wait returns,
the flag is still set — Wait does not clear it, so the same adapter instance
cannot be reused without an explicit Reset, contrary to the claim. -/
theorem C9_wait_does_not_clear_counterexample :
    ¬((ActivateAudioInterfaceAsyncCallback.WaitPost
        (ActivateAudioInterfaceAsyncCallback.ActivateCompleted
          ActivateAudioInterfaceAsyncCallback.constructed)).m_bActivateFinished
      = false) := by
  decide

/-- C9 (amended): the waitable flag is initially unset; the completion
handler sets the flag and wakes a waiter; Wait blocks until the flag is set
and returns leaving the flag set (it performs no state change); reuse of the
same adapter instance requires an explicit Reset, which clears the flag. -/
theorem C9_adapter_amended :
    ActivateAudioInterfaceAsyncCallback.constructed.m_bActivateFinished = false ∧
    (∀ a, (ActivateAudioInterfaceAsyncCallback.ActivateCompleted
      a).m_bActivateFinished = true) ∧
    (∀ a, ActivateAudioInterfaceAsyncCallback.WaitReturns a = true ↔
      a.m_bActivateFinished = true) ∧
    (∀ a, ActivateAudioInterfaceAsyncCallback.WaitPost a = a) ∧
    (∀ a, (ActivateAudioInterfaceAsyncCallback.Reset a).m_bActivateFinished
      = false) := by
  exact ⟨rfl, fun a => rfl, fun a => Iff.rfl, fun a => rfl, fun a => rfl⟩

/-- C10: PauseCapture moves the state to PAUSED before stopping the session
and on a session-stop failure returns STOP with the state left PAUSED, the
last error recorded and the worker threads still in their previous (running)
condition; symmetrically ResumeCapture moves the state to CAPTURING before
starting the session and on failure returns START with the state left
CAPTURING and the threads not restarted. -/
theorem C10_pause_resume_no_rollback (s t : ProcessLoopbackCapture)
    (hs : s.m_CaptureState = eCaptureState.CAPTURING)
    (ht : t.m_CaptureState = eCaptureState.PAUSED)
    (e1 e2 : Int) (h1 : e1 ≠ 0) (h2 : e2 ≠ 0) (d : ℚ) :
    PauseCapture s e1 =
      ({ s with m_CaptureState := eCaptureState.PAUSED, m_hrLastError := e1 },
       eCaptureError.STOP) ∧
    (PauseCapture s e1).1.m_bThreadsStarted = s.m_bThreadsStarted ∧
    ResumeCapture t d e2 =
      ({ t with m_CaptureState := eCaptureState.CAPTURING, m_hrLastError := e2 },
       eCaptureError.START) ∧
    (ResumeCapture t d e2).1.m_bThreadsStarted = t.m_bThreadsStarted := by
  have hp : PauseCapture s e1 =
      ({ s with m_CaptureState := eCaptureState.PAUSED, m_hrLastError := e1 },
       eCaptureError.STOP) := by
    unfold PauseCapture
    rw [if_neg (fun hx => hx hs), if_pos h1]
  have hr : ResumeCapture t d e2 =
      ({ t with m_CaptureState := eCaptureState.CAPTURING, m_hrLastError := e2 },
       eCaptureError.START) := by
    unfold ResumeCapture
    rw [if_neg (fun hx => hx ht), if_pos h2]
  exact ⟨hp, by rw [hp], hr, by rw [hr]⟩

/-- Witness for C10: a failing session stop on the running in-flight object
returns STOP with state PAUSED and threads still running; a failing session
start on the paused object returns START with state CAPTURING and threads
not restarted. -/
theorem C10_pause_resume_no_rollback_witness :
    (PauseCapture capturingInFlight (-1)).2 = eCaptureError.STOP ∧
    (PauseCapture capturingInFlight (-1)).1.m_CaptureState =
      eCaptureState.PAUSED ∧
    (PauseCapture capturingInFlight (-1)).1.m_bThreadsStarted = true ∧
    (ResumeCapture pausedSample (1/10) (-1)).2 = eCaptureError.START ∧
    (ResumeCapture pausedSample (1/10) (-1)).1.m_CaptureState =
      eCaptureState.CAPTURING ∧
    (ResumeCapture pausedSample (1/10) (-1)).1.m_bThreadsStarted = false := by
  have h := C10_pause_resume_no_rollback capturingInFlight pausedSample rfl rfl
    (-1) (-1) (by norm_num) (by norm_num) (1/10)
  exact ⟨by rw [h.1], by rw [h.1], by rw [h.2.1] <;> rfl, by rw [h.2.2.1],
    by rw [h.2.2.1], by rw [h.2.2.2] <;> rfl⟩
